import Mathlib

/-!
Verification of the flag-simplifier / polytope conversion core of the
tacochoron repository (src/src/ts/polytopes/types.ts, together with
src/src/data structures/nodeD.js and constructionNode.js).

The simplifier engine (PolytopeS.modifySimplifier and its callers
extendSimplifier, mergeSimplifiers, toPolytopeC) is embedded as pure
state-passing functions over a flag type with a linear order.  A FlagMap
(the source file for the FlagMap class is not part of src/) is modelled
from the spec as a total function from flags to flags together with the
fixed key-iteration list, matching a dictionary keyed by flag whose key
set is the whole flag space and whose iteration order is insertion order.

Crucially, the source aliases its maps: modifySimplifier writes unions
into its first argument in place, and toPolytopeC keeps the identity
simplifier as entry 0 of both the ascending and the descending chains.
The embedding reproduces this by threading the current state of each map
object explicitly through the sequence of calls.
-/

namespace Taco

variable {F : Type} [LinearOrder F]

/-- Embeds the representative-chasing while loops of modifySimplifier
(types.ts lines 443-453 and 467-470):
while (!equalFlags(old, cur)) { old = cur; cur = map.get(cur) }.
The loop is given explicit fuel; on the maps the program builds, every
entry maps a flag to a flag that is at most as large, so any fuel above
the number of flags reaches the same fixed point the JS loop reaches. -/
def chaseRep (m : F → F) : Nat → F → F → F
  | 0, _, cur => cur
  | fuel + 1, old, cur => if old = cur then cur else chaseRep m fuel cur (m cur)

/-- Embeds FlagMap.set on a map whose key set is the whole flag space:
a pointwise update. -/
def setMap (m : F → F) (k v : F) : F → F := fun x => if x = k then v else m x

/-- Processing of one key of the union pass of modifySimplifier
(types.ts lines 421-460).  The side argument computes, from the live map
state and the key, the two sentinel/start pairs (oldLeftElem, leftElem)
and (oldRightElem, rightElem); the extend and merge branches differ only
in this computation.  Afterwards both sides are chased and the larger
resolved representative is redirected to the smaller one, mirroring
compareFlags returning 1 or -1. -/
def unionStep (side : (F → F) → F → (F × F) × (F × F)) (fuel : Nat)
    (m : F → F) (key : F) : F → F :=
  let s := side m key
  let l := chaseRep m fuel s.1.1 s.1.2
  let r := chaseRep m fuel s.2.1 s.2.2
  if r < l then setMap m l r
  else if l < r then setMap m r l
  else m

/-- The full union pass: the for-in loop over the keys of simplifier1
(types.ts line 421), folding the per-key step over the fixed key list. -/
def unionPass (side : (F → F) → F → (F × F) × (F × F)) (fuel : Nat)
    (keys : List F) (m : F → F) : F → F :=
  keys.foldl (fun acc k => unionStep side fuel acc k) m

/-- The clean-up pass of modifySimplifier (types.ts lines 462-473):
betterSimplifier.set(key, chase of newSimplifier.get(key)), with the
sentinel oldElem initialised to the flag (0, identity), which is passed
here as s0. -/
def cleanupMap (s0 : F) (fuel : Nat) (m : F → F) : F → F :=
  fun k => chaseRep m fuel s0 (m k)

/-- Embeds modifySimplifier (types.ts lines 415-476).  Returns both the
mutated state of simplifier1 after the union pass (the source mutates
its argument in place via newSimplifier = simplifier1) and the freshly
built betterSimplifier that the method returns. -/
def modifySimplifier (side : (F → F) → F → (F × F) × (F × F)) (s0 : F)
    (fuel : Nat) (keys : List F) (m : F → F) : (F → F) × (F → F) :=
  let mU := unionPass side fuel keys m
  (mU, cleanupMap s0 fuel mU)

/-- Side computation of the extend branch (types.ts lines 428-434) when
simplifier1 is the identitySimplifier object itself, so that the read of
identitySimplifier.get(key) sees the live, partially mutated map. -/
def extendSideAliased (mv : F → Nat → F) (s0 : F) (g : Nat) :
    (F → F) → F → (F × F) × (F × F) :=
  fun m key => ((s0, m key), (mv s0 g, mv (m key) g))

/-- Side computation of the extend branch when simplifier1 is a later
simplifier: identitySimplifier.get(key) reads the snapshot identSt, the
state the shared identity object has at the time of this call (it is not
mutated during the call). -/
def extendSideSnapshot (identSt : F → F) (mv : F → Nat → F) (s0 : F)
    (g : Nat) : (F → F) → F → (F × F) × (F × F) :=
  fun _m key => ((s0, identSt key), (mv s0 g, mv (identSt key) g))

/-- Side computation of the merge branch (types.ts lines 437-441) with
simplifier2 a distinct object: leftElem reads the live simplifier1,
rightElem reads the constant snapshot s2. -/
def mergeSideSnapshot (s2 : F → F) (s0 : F) :
    (F → F) → F → (F × F) × (F × F) :=
  fun m key => ((s0, m key), (s0, s2 key))

/-- Side computation of the merge branch when simplifier2 is the same
object as simplifier1, so both sides read the live map. -/
def mergeSideAliased (s0 : F) : (F → F) → F → (F × F) × (F × F) :=
  fun m key => ((s0, m key), (s0, m key))

/-- Number of flags strictly below x; strictly decreasing chains starting
at x have length at most rankOf x. -/
def rankOf [Fintype F] (x : F) : Nat :=
  (Finset.univ.filter (fun y => y < x)).card


/-!
Concrete instantiation: the dihedral group of the regular triangle.

The symmetry-group collaborator is external to the repository (spec
section 6); it must provide an identity, a strict-total-order comparator,
and a finite enumeration.  The group of the regular polygon with n = 3
has order 6; an element (s, t) acts on vertex labels by x being sent to
t - x when s is true (a reflection) and to t + x otherwise (a rotation).
Composition below is (s1, t1) after (s2, t2).  The two generators folded
by toPolytopeC for a polygon are the reflections a = (true, 0) (the
change-vertex element change of the single flag class) and b = (true, 1)
(the change-edge element change); each flag class element change applies
the generator on the right of the flag domain.

Flags of the single flag class are encoded as the rank their domain has
in the chosen enumeration, so the flag comparator of compareFlags
(class number first, then the group comparator) is the linear order of
Fin 6, and the key-iteration order of the identity simplifier dictionary
is the index order.
-/

/-- Group elements of the triangle symmetry group: a reflection bit and a
rotation amount. -/
abbrev D3 := Bool × Fin 3

/-- Composition of triangle symmetries: the element (s1, t1) composed
with (s2, t2), acting on labels x as t1 + s1 (t2 + s2 x). -/
def mulD3 (a b : D3) : D3 :=
  (xor a.1 b.1, if a.1 then a.2 - b.2 else a.2 + b.2)

/-- The identity element of the triangle group. -/
def idD3 : D3 := (false, 0)

/-- The element change applied by generator g of the single polygon flag
class: generator 0 is the reflection a, generator 1 the reflection b. -/
def genD3 (g : Nat) : D3 := if g = 0 then (true, 0) else (true, 1)

/-- Rank of a group element in an enumeration; this rank is the Fin 6
encoding of the flag (0, element). -/
def encD3 (e : List D3) (x : D3) : Fin 6 :=
  ⟨e.indexOf x % 6, Nat.mod_lt _ (by omega)⟩

/-- Group element denoted by an encoded flag. -/
def decD3 (e : List D3) (i : Fin 6) : D3 := e.getD i.val idD3

/-- Embeds PolytopeS.moveFlag (types.ts lines 375-386) for the polygon
instance: the flag class stays class 0 and the domain is composed with
the generator element change. -/
def mvD3 (e : List D3) (i : Fin 6) (g : Nat) : Fin 6 :=
  encD3 e (mulD3 (decD3 e i) (genD3 g))

/-- Encoded flag of the identity element: the sentinel new
Flag(0, this.symmetries.identity()) of modifySimplifier. -/
def sentD3 (e : List D3) : Fin 6 := encD3 e idD3

/-- Key-iteration order of the simplifier dictionaries: all six flags in
enumeration order (domains outer loop, the single flag class inner). -/
def keys6 : List (Fin 6) := List.finRange 6

/-- Chase fuel exceeding the number of flags: with six flags every
representative chain stabilises within six lookups. -/
def fuel6 : Nat := 7

/-- Enumeration with the identity first: rotations then reflections. -/
def enumCanon : List D3 :=
  [(false, 0), (false, 1), (false, 2), (true, 0), (true, 1), (true, 2)]

/-- Enumeration used for the C2 counterexample; the identity is still
first, only later elements are ordered differently. -/
def enumB : List D3 :=
  [(false, 0), (true, 0), (false, 1), (true, 1), (true, 2), (false, 2)]

/-- Enumeration used for the C3 counterexample: the comparator ranks the
rotation (false, 1) below the identity, which the group interface of
spec section 6 permits (any strict total order). -/
def enumC : List D3 :=
  [(false, 1), (false, 0), (false, 2), (true, 0), (true, 1), (true, 2)]

/-!
Replay of the toPolytopeC pipeline (types.ts lines 496-639) for a
polygon, rank 2, over a given enumeration.  The source sequence of calls
and the objects they mutate are:

ascending (lines 510-520): asc0 is the identitySimplifier object A.
extendSimplifier(A, 0) runs its union pass inside A itself (state A1)
and returns asc1; extendSimplifier(asc1, 1) mutates asc1 (state asc1U),
reads identitySimplifier at state A1, and returns asc2.

descending (lines 524-535): desc0 is the same object A.
extendSimplifier(A, 1) is again aliased with identitySimplifier (state
A2 afterwards) and returns desc1; extendSimplifier(desc1, 0) mutates
desc1 (state desc1U), reads A at state A2, and returns desc2.

element simplifiers (lines 539-552): mergeSimplifiers(asc0, desc1) runs
inside A (state A3), reading desc1 at its mutated state desc1U, and
returns elemS0, whose fixed points are the vertex representatives.
-/

/-- State of the identity simplifier object after the first ascending
extension, extendSimplifier(identity, 0). -/
def stageA1 (e : List D3) : Fin 6 → Fin 6 :=
  unionPass (extendSideAliased (mvD3 e) (sentD3 e) 0) fuel6 keys6 id

/-- The returned ascending simplifier for generator subset \x7b0\x7d. -/
def ascOne (e : List D3) : Fin 6 → Fin 6 :=
  cleanupMap (sentD3 e) fuel6 (stageA1 e)

/-- State of the ascOne object after the union pass of the second
ascending extension, which mutates it in place. -/
def ascOneU (e : List D3) : Fin 6 → Fin 6 :=
  unionPass (extendSideSnapshot (stageA1 e) (mvD3 e) (sentD3 e) 1) fuel6
    keys6 (ascOne e)

/-- The returned ascending simplifier for generator subset \x7b0, 1\x7d:
the value of extendSimplifier(extendSimplifier(identity, 0), 1). -/
def ascTwo (e : List D3) : Fin 6 → Fin 6 :=
  cleanupMap (sentD3 e) fuel6 (ascOneU e)

/-- State of the identity object after the first descending extension,
which is aliased with it. -/
def stageA2 (e : List D3) : Fin 6 → Fin 6 :=
  unionPass (extendSideAliased (mvD3 e) (sentD3 e) 1) fuel6 keys6
    (stageA1 e)

/-- The returned descending simplifier for generator subset \x7b1\x7d. -/
def descOne (e : List D3) : Fin 6 → Fin 6 :=
  cleanupMap (sentD3 e) fuel6 (stageA2 e)

/-- State of the descOne object after the union pass of the second
descending extension. -/
def descOneU (e : List D3) : Fin 6 → Fin 6 :=
  unionPass (extendSideSnapshot (stageA2 e) (mvD3 e) (sentD3 e) 0) fuel6
    keys6 (descOne e)

/-- State of the identity object after the union pass of
mergeSimplifiers(ascendingSimplifiers[0], descendingSimplifiers[1]),
which is aliased with its first argument. -/
def stageA3 (e : List D3) : Fin 6 → Fin 6 :=
  unionPass (mergeSideSnapshot (descOneU e) (sentD3 e)) fuel6 keys6
    (stageA2 e)

/-- The level-0 element simplifier elementSimplifiers[0] returned by the
merge: its fixed points are the vertex representative flags. -/
def elemSimpZero (e : List D3) : Fin 6 → Fin 6 :=
  cleanupMap (sentD3 e) fuel6 (stageA3 e)

/-- The vertex representative flags collected by the vertices loop of
toPolytopeC (types.ts lines 573-585): the flags equal to their image
under the level-0 element simplifier, in enumeration order.  The vertex
list of the output polytope has exactly one Point per entry (the seed
vertex transformed by the flag domain), so its length is the length of
this list whatever the seed geometry is. -/
def vertexReps (e : List D3) : List (Fin 6) :=
  keys6.filter (fun f => elemSimpZero e f = f)


/-!
Geometric layer of the explicit polytope class PolytopeC.

The Point primitive (src/ts/geometry/Point) and the Space helpers are
imported by types.ts but their files are not under src/, so the vector
operations are modelled from the spec, section 4.1.  The model uses
exact rational coordinates; the two epsilon comparisons inside
circumcenter, which the source makes on square roots of these rational
quantities, are embedded by their exact real-number characterisations in
terms of squares, so every definition stays computable.
-/

/-- Modelled from the spec: the Point primitive of section 4.1, a
fixed-length vector of reals, modelled with rational coordinates. -/
abbrev PointQ := List ℚ

/-- Modelled from the spec: componentwise vector addition (Point.add).
Section 4.1 declares a dimension mismatch a contract violation, and all
call sites below pass vectors of equal length. -/
def vadd (v w : PointQ) : PointQ := List.zipWith (fun a b => a + b) v w

/-- Modelled from the spec: componentwise vector subtraction. -/
def vsub (v w : PointQ) : PointQ := List.zipWith (fun a b => a - b) v w

/-- Modelled from the spec: scaling of a vector by a number. -/
def vscale (r : ℚ) (v : PointQ) : PointQ := v.map (fun a => r * a)

/-- Modelled from the spec: the dot product of two vectors. -/
def vdot (v w : PointQ) : ℚ := (List.zipWith (fun a b => a * b) v w).sum

/-- Modelled from the spec: the squared magnitude (Point.sqMagnitude). -/
def sqMagnitude (v : PointQ) : ℚ := vdot v v

/-- Modelled from the spec: the squared distance of two points
(Space.distanceSq). -/
def distSq (v w : PointQ) : ℚ := sqMagnitude (vsub v w)

/-- Modelled from the spec: Point.project, the component of q along u,
that is the vector projection of q onto u. -/
def projectQ (q u : PointQ) : PointQ := vscale (vdot q u / vdot u u) u

/-- Modelled from the spec: the zero point of a given dimension, the
value of new Point(d) with d a number. -/
def zeroPoint (d : Nat) : PointQ := List.replicate d 0

/-- The tolerance epsilon = 1e-9 of PolytopeC.circumcenter. -/
def epsQ : ℚ := 1 / 1000000000

/-- Modelled from the spec: the exact meaning of the float comparison
abs(sqrt a - sqrt b) > eps for nonnegative rationals a and b (the
squared magnitude of O and the squared distance of O and Q) and positive
eps.  Squaring twice: the comparison holds exactly when
a + b - eps * eps is positive and its square exceeds 4ab. -/
def absSqrtDiffGt (a b eps : ℚ) : Prop :=
  0 < a + b - eps * eps ∧
    4 * (a * b) < (a + b - eps * eps) * (a + b - eps * eps)

instance (a b eps : ℚ) : Decidable (absSqrtDiffGt a b eps) :=
  inferInstanceAs (Decidable (And _ _))

/-- The main loop of PolytopeC.circumcenter (types.ts lines 180-208)
over the vertices after the first, each already translated by the first
vertex P.  The state is the orthogonal basis built so far and the
running center O.  The test v.magnitude() > epsilon is embedded as the
equivalent exact comparison of squares. -/
def ccLoop : List PointQ → List PointQ → PointQ → Option PointQ
  | [], _, O => some O
  | Q :: qs, vectors, O =>
    let v := vectors.foldl (fun w u => vsub w (projectQ Q u)) Q
    if epsQ * epsQ < sqMagnitude v then
      let k := (distSq O Q - sqMagnitude O) / (2 * vdot Q v)
      ccLoop qs (vectors ++ [v]) (vadd O (vscale k v))
    else if absSqrtDiffGt (sqMagnitude O) (distSq O Q) epsQ then none
    else ccLoop qs vectors O

/-- Embeds the ElementList type of types.ts line 13: either the empty
list (the nullitope) or a vertex level followed by the higher levels,
each element of level d a list of indices into level d - 1. -/
inductive ElementListE where
  | nil : ElementListE
  | cons (verts : List PointQ) (higher : List (List (List Nat))) :
      ElementListE

/-- Number of levels of an element list. -/
def levelCount : ElementListE → Nat
  | .nil => 0
  | .cons _ hs => hs.length + 1

/-- Embeds PolytopeC.circumcenter (types.ts lines 161-212).  The result
distinguishes the returned null (Except.ok none, the normal no-center
outcome) from a thrown TypeError (Except.error), which happens when the
vertex level exists but is empty, since vertices[0] is then undefined
and the final O.add(P) dereferences it. -/
def circumcenter (spaceDims : Nat) :
    ElementListE → Except String (Option PointQ)
  | .nil => .ok none
  | .cons [] _ => .error "TypeError: vertices[0] is undefined"
  | .cons (P :: rest) _ =>
    match ccLoop (rest.map (fun q => vsub q P)) [] (zeroPoint spaceDims) with
    | none => .ok none
    | some O => .ok (some (vadd O P))

/-- Embeds the ConstructionNode values the embedded code builds: the
CNPlain node the constructor creates by default, or a named node used
when a construction is supplied explicitly (constructionNode.js). -/
inductive ConstrNode where
  | plain (count : Nat) (rank : Int) : ConstrNode
  | named (s : String) : ConstrNode

/-- Embeds the PolytopeC instance data (types.ts lines 78-113). -/
structure PolytopeCE where
  elementList : ElementListE
  dimensions : Int
  spaceDimensions : Int
  construction : ConstrNode

/-- Embeds the default-construction branch of the PolytopeC constructor
(types.ts lines 99-104): new CNPlain([elementList[length - 2].length,
length - 1]).  On an element list with fewer than two levels the index
length - 2 is negative, the access yields undefined and reading its
length throws a TypeError. -/
def defaultConstruction : ElementListE → Except String ConstrNode
  | .nil => .error "TypeError: cannot read length of undefined"
  | .cons _ [] => .error "TypeError: cannot read length of undefined"
  | .cons verts (h0 :: hrest) =>
    let hs := h0 :: hrest
    let cnt :=
      if hrest.length = 0 then verts.length
      else ((hs.get? (hs.length - 2)).getD []).length
    .ok (.plain cnt ((hs.length + 1 : Int) - 1))

/-- Embeds the spaceDimensions computation of the constructor (types.ts
lines 110-112): elementList[0] present but empty makes elementList[0][0]
undefined and dimensions() throws; a missing vertex level yields -1. -/
def spaceDimsOf : ElementListE → Except String Int
  | .nil => .ok (-1)
  | .cons [] _ => .error "TypeError: vertices[0] is undefined"
  | .cons (v :: _) _ => .ok (v.length : Int)

/-- Embeds the PolytopeC constructor (types.ts lines 92-113): default
construction first when none is supplied, then the field assignments
with dimensions = elementList.length - 1. -/
def mkPolytopeC (el : ElementListE) (c : Option ConstrNode) :
    Except String PolytopeCE := do
  let cn ← match c with
    | some cn => Except.ok cn
    | none => defaultConstruction el
  let sd ← spaceDimsOf el
  Except.ok ⟨el, (levelCount el : Int) - 1, sd, cn⟩

/-- Embeds PolytopeC.setSpaceDimensions (types.ts lines 230-244).  In
the truncation branch the source assigns coords.slice(0, dim) to the
local variable coords only (line 237), so the vertex keeps its original
coordinate array; the padding branch pushes zeros onto that array in
place.  The early return for a missing vertex level skips the final
spaceDimensions assignment. -/
def setSpaceDimensions (p : PolytopeCE) (dim : Nat) : PolytopeCE :=
  match p.elementList with
  | .nil => p
  | .cons verts hs =>
    let newVerts := verts.map (fun coords =>
      if dim < coords.length then coords
      else if coords.length < dim then
        coords ++ List.replicate (dim - coords.length) 0
      else coords)
    { p with elementList := .cons newVerts hs, spaceDimensions := (dim : Int) }

/-- Embeds PolytopeC.circumradius (types.ts lines 150-153) up to the
final square root: the source returns the magnitude of the first vertex
of the converted element list (its distance from the origin), or 0 when
the vertex level is missing; this embedding returns the square of that
value, which determines it since magnitudes are nonnegative.  A present
but empty vertex level makes els[0][0] undefined and throws. -/
def circumradiusSq (p : PolytopeCE) : Option ℚ :=
  match p.elementList with
  | .nil => some 0
  | .cons [] _ => none
  | .cons (v :: _) _ => some (sqMagnitude v)

/-!
Doubly linked cycle nodes, from src/src/data structures/nodeD.js.  The
arena maps a vertex index to the state of the NodeD object the source
stores at vertexDLL[index]; neighbor slots hold the vertex index of the
linked node.  Failures are distinguished: the RangeError thrown by
faceToVertices for a bad face index, the Error thrown by linkTo on a
third link, and the TypeError that property access on undefined raises.
-/

/-- Failure modes of faceToVertices and the node layer it drives. -/
inductive FaceErr where
  | rangeError : FaceErr
  | linkError : FaceErr
  | undefinedAccess : FaceErr
  | outOfFuel : FaceErr
deriving DecidableEq

/-- State of one NodeD object: payload, the two neighbor slots, and the
traversed mark. -/
structure NodeSt where
  value : Nat
  node0 : Option Nat
  node1 : Option Nat
  traversed : Bool

/-- The vertexDLL array of faceToVertices, keyed by vertex index. -/
def Arena : Type := Nat → Option NodeSt

/-- Store update of one node object. -/
def arenaSet (st : Arena) (k : Nat) (n : NodeSt) : Arena :=
  fun x => if x = k then some n else st x

/-- The empty vertexDLL array. -/
def emptyArena : Arena := fun _ => none

/-- One direction of NodeD.prototype.linkTo (nodeD.js lines 20-36):
fill node0 first, then node1, and throw on a third link. -/
def linkHalf (n : NodeSt) (partner : Nat) : Except FaceErr NodeSt :=
  match n.node0 with
  | none => .ok { n with node0 := some partner }
  | some _ =>
    match n.node1 with
    | none => .ok { n with node1 := some partner }
    | some _ => .error .linkError

/-- Embeds NodeD.prototype.linkTo: links this to node, then node to
this, sequentially on the shared store, so a self link sees the first
half-link already in place. -/
def linkTo (st : Arena) (a b : Nat) : Except FaceErr Arena :=
  match st a with
  | none => .error .undefinedAccess
  | some na =>
    match linkHalf na b with
    | .error e => .error e
    | .ok na2 =>
      let st2 := arenaSet st a na2
      match st2 b with
      | none => .error .undefinedAccess
      | some nb =>
        match linkHalf nb a with
        | .error e => .error e
        | .ok nb2 => .ok (arenaSet st2 b nb2)

/-- Lazy creation of vertexDLL[v] on first reference (types.ts lines
267-273). -/
def ensureNode (st : Arena) (v : Nat) : Arena :=
  match st v with
  | some _ => st
  | none => arenaSet st v ⟨v, none, none, false⟩

/-- The while loop of NodeD.prototype.getCycle (nodeD.js lines 54-61).
Each pass marks the current node, appends its payload, and steps to
node0 when node1 is already traversed and to node1 otherwise; a missing
neighbor slot reproduces the TypeError of reading traversed on
undefined.  The JS loop marks a fresh node every pass, so it terminates
within the node count; the fuel supplied by faceToVertices exceeds that
and the outOfFuel case is never reached on those calls. -/
def cycleWalk : Nat → Arena → Nat → List Nat → Except FaceErr (List Nat)
  | 0, _, _, _ => .error .outOfFuel
  | fuel + 1, st, cur, acc =>
    match st cur with
    | none => .error .undefinedAccess
    | some nd =>
      if nd.traversed then .ok acc
      else
        let st2 := arenaSet st cur { nd with traversed := true }
        let acc2 := acc ++ [nd.value]
        match nd.node1 with
        | none => .error .undefinedAccess
        | some n1 =>
          match st2 n1 with
          | none => .error .undefinedAccess
          | some t1 =>
            if t1.traversed then
              match nd.node0 with
              | none => .error .undefinedAccess
              | some n0 => cycleWalk fuel st2 n0 acc2
            else cycleWalk fuel st2 n1 acc2

/-- Embeds NodeD.prototype.getCycle (nodeD.js lines 49-64): start the
cycle with the value of this node, mark it, and walk from node0. -/
def getCycle (st : Arena) (start fuel : Nat) : Except FaceErr (List Nat) :=
  match st start with
  | none => .error .undefinedAccess
  | some n =>
    match n.node0 with
    | none => .error .undefinedAccess
    | some first =>
      cycleWalk fuel (arenaSet st start { n with traversed := true }) first
        [n.value]

/-- Embeds PolytopeC.faceToVertices (types.ts lines 254-284): the
RangeError guard on elementList[2] and its i-th entry, the edge loop
building and linking the vertexDLL nodes, then the cycle walk from the
first vertex of the first edge of the face.  Edges are index pairs; the
element lists the claims exercise are well formed in that respect
(malformed tables are precondition violations per spec section 7). -/
def faceToVertices (p : PolytopeCE) (i : Nat) : Except FaceErr (List Nat) :=
  match p.elementList with
  | .nil => .error .rangeError
  | .cons _ hs =>
    match hs.get? 1 with
    | none => .error .rangeError
    | some faces =>
      match faces.get? i with
      | none => .error .rangeError
      | some face =>
        let edges := (hs.get? 0).getD []
        match face.foldlM (fun (st : Arena) j =>
            match edges.get? j with
            | none => Except.error FaceErr.undefinedAccess
            | some edge =>
              let a := edge.getD 0 0
              let b := edge.getD 1 0
              linkTo (ensureNode (ensureNode st a) b) a b) emptyArena with
        | .error e => .error e
        | .ok st =>
          match face.get? 0 with
          | none => .error .undefinedAccess
          | some j0 =>
            match edges.get? j0 with
            | none => .error .undefinedAccess
            | some e0 => getCycle st (e0.getD 0 0) (2 * face.length + 2)

/-!
Concrete element lists and polytopes used by the claims.
-/

/-- The unit square as an explicit polytope: four vertices, the four
edges (0,1), (1,2), (2,3), (3,0), and one face listing all four edges. -/
def squareEL : ElementListE :=
  .cons [[0, 0], [1, 0], [1, 1], [0, 1]]
    [[[0, 1], [1, 2], [2, 3], [3, 0]], [[0, 1, 2, 3]]]

/-- The unit square polytope value. -/
def squareP : PolytopeCE := ⟨squareEL, 2, 2, .named "square"⟩

/-- A 2-face whose edge set is two disjoint triangles: the edge set does
not close into a single cycle. -/
def twoTrianglesP : PolytopeCE :=
  ⟨.cons [[0, 0], [3, 0], [0, 3], [9, 0], [12, 0], [9, 3]]
    [[[0, 1], [1, 2], [2, 0], [3, 4], [4, 5], [5, 3]], [[0, 1, 2, 3, 4, 5]]],
    2, 2, .named "two triangles"⟩

/-- The digon: two edges with the same two endpoints, so each vertex has
a single distinct edge partner. -/
def digonP : PolytopeCE :=
  ⟨.cons [[0, 0], [1, 0]] [[[0, 1], [0, 1]], [[0, 1]]], 2, 2, .named "digon"⟩

/-- A face with an open boundary: a path of two edges. -/
def openPathP : PolytopeCE :=
  ⟨.cons [[0, 0], [1, 0], [2, 0]] [[[0, 1], [1, 2]], [[0, 1]]], 2, 2,
    .named "open path"⟩

/-- A face giving vertex 0 three edge partners. -/
def tripleLinkP : PolytopeCE :=
  ⟨.cons [[0, 0], [1, 0], [0, 1], [1, 1]]
    [[[0, 1], [0, 2], [0, 3]], [[0, 1, 2]]], 2, 2, .named "triple"⟩

/-- The regular 2-simplex with exact rational coordinates: the three
standard basis points of three-space; its circumcenter is the point with
all coordinates 1/3, at squared distance 2/3 from each vertex. -/
def simplexEL : ElementListE :=
  .cons [[1, 0, 0], [0, 1, 0], [0, 0, 1]] []

/-- Four coplanar points that are not concyclic: the circle through the
first three has center (1/2, 1/2), and the fourth point is not on it. -/
def fourPointsEL : ElementListE :=
  .cons [[0, 0], [1, 0], [0, 1], [2, 2]] []

/-- The unit square translated by (1, 1): its circumcenter (3/2, 3/2) is
away from the origin, separating the circumradius the code computes
(distance of the first vertex from the origin) from the distance of the
vertices to the circumcenter. -/
def shiftedSquareP : PolytopeCE :=
  ⟨.cons [[1, 1], [2, 1], [2, 2], [1, 2]] [], 0, 2, .named "shifted"⟩

/-- A polytope with a single three-coordinate vertex, the failing input
of the setSpaceDimensions truncation claim. -/
def threeCoordP : PolytopeCE :=
  ⟨.cons [[1, 2, 3]] [], 0, 3, .named "point"⟩


/-- Adjacent pairs of a cyclic vertex list, wraparound included: each
entry paired with its successor, the last with the first. -/
def cyclePairs (l : List Nat) : List (Nat × Nat) := l.zip (l.rotate 1)

/-- Whether a vertex pair is one of the listed edges, in either
orientation. -/
def pairInEdges (e : List (List Nat)) (p : Nat × Nat) : Prop :=
  [p.1, p.2] ∈ e ∨ [p.2, p.1] ∈ e

instance (e : List (List Nat)) (p : Nat × Nat) :
    Decidable (pairInEdges e p) :=
  inferInstanceAs (Decidable (Or _ _))

theorem chaseRep_le (m : F → F) (hm : ∀ f, m f ≤ f) :
    ∀ (fuel : Nat) (old cur : F), chaseRep m fuel old cur ≤ cur := by
  intro fuel
  induction fuel with
  | zero => intro old cur; exact le_rfl
  | succ n ih =>
    intro old cur
    by_cases h : old = cur
    · simp [chaseRep, h]
    · simpa [chaseRep, h] using le_trans (ih cur (m cur)) (hm cur)

theorem setMap_decr {m : F → F} (hm : ∀ f, m f ≤ f) {k v : F} (hv : v ≤ k) :
    ∀ f, setMap m k v f ≤ f := by
  intro f
  unfold setMap
  by_cases h : f = k
  · simpa [h] using hv
  · simpa [h] using hm f

theorem unionStep_decr (side : (F → F) → F → (F × F) × (F × F)) (fuel : Nat)
    {m : F → F} (hm : ∀ f, m f ≤ f) (key : F) :
    ∀ f, unionStep side fuel m key f ≤ f := by
  intro f
  by_cases h1 : chaseRep m fuel ((side m key).2.1) ((side m key).2.2) <
      chaseRep m fuel ((side m key).1.1) ((side m key).1.2)
  · simp only [unionStep, if_pos h1]
    exact setMap_decr hm (le_of_lt h1) f
  · by_cases h2 : chaseRep m fuel ((side m key).1.1) ((side m key).1.2) <
        chaseRep m fuel ((side m key).2.1) ((side m key).2.2)
    · simp only [unionStep, if_neg h1, if_pos h2]
      exact setMap_decr hm (le_of_lt h2) f
    · simp only [unionStep, if_neg h1, if_neg h2]
      exact hm f

theorem unionPass_decr (side : (F → F) → F → (F × F) × (F × F)) (fuel : Nat)
    (keys : List F) :
    ∀ {m : F → F}, (∀ f, m f ≤ f) → ∀ f, unionPass side fuel keys m f ≤ f := by
  induction keys with
  | nil => intro m hm f; exact hm f
  | cons k ks ih =>
    intro m hm f
    have hstep := unionStep_decr side fuel hm k
    have hrw : unionPass side fuel (k :: ks) m =
        unionPass side fuel ks (unionStep side fuel m k) := rfl
    rw [hrw]
    exact ih hstep f

theorem chaseRep_of_eq (m : F → F) (fuel : Nat) {old cur : F} (h : old = cur) :
    chaseRep m fuel old cur = cur := by
  cases fuel with
  | zero => rfl
  | succ n => simp only [chaseRep, if_pos h]

theorem chaseRep_fixpoint_eval {m : F → F} {p : F} (hp : m p = p)
    (fuel : Nat) (old : F) : chaseRep m (fuel + 1) old p = p := by
  by_cases h : old = p
  · simp [chaseRep, h]
  · simp only [chaseRep, if_neg h, hp]
    exact chaseRep_of_eq m fuel rfl

theorem rankOf_lt_card [Fintype F] (x : F) : rankOf x < Fintype.card F := by
  have hss : Finset.univ.filter (fun y => y < x) ⊂ Finset.univ :=
    Finset.filter_ssubset.mpr ⟨x, Finset.mem_univ x, lt_irrefl x⟩
  show (Finset.univ.filter (fun y => y < x)).card < Finset.univ.card
  exact Finset.card_lt_card hss

theorem rankOf_strict [Fintype F] {x y : F} (h : y < x) :
    rankOf y < rankOf x := by
  apply Finset.card_lt_card
  constructor
  · intro z hz
    simp only [Finset.mem_filter, Finset.mem_univ, true_and] at hz ⊢
    exact lt_trans hz h
  · intro hsub
    have hy := hsub (by simp [h] : y ∈ Finset.univ.filter (fun z => z < x))
    simp at hy

theorem chaseRep_fix [Fintype F] {m : F → F} (hm : ∀ f, m f ≤ f) :
    ∀ (fuel : Nat) (x : F), rankOf x < fuel →
      m (chaseRep m fuel x (m x)) = chaseRep m fuel x (m x) := by
  intro fuel
  induction fuel with
  | zero => intro x hx; exact absurd hx (Nat.not_lt_zero _)
  | succ n ih =>
    intro x hx
    by_cases h : x = m x
    · simp only [chaseRep, if_pos h]
      rw [← h, ← h]
    · simp only [chaseRep, if_neg h]
      have hlt : m x < x := lt_of_le_of_ne (hm x) (fun e => h e.symm)
      exact ih (m x)
        (lt_of_lt_of_le (rankOf_strict hlt) (Nat.lt_succ_iff.mp hx))

theorem cleanupMap_fix [Fintype F] {m : F → F} (hm : ∀ f, m f ≤ f) {s0 : F}
    (h0 : m s0 = s0) {fuel : Nat} (hf : Fintype.card F < fuel) (k : F) :
    m (cleanupMap s0 fuel m k) = cleanupMap s0 fuel m k := by
  obtain ⟨n, rfl⟩ : ∃ n, fuel = n + 1 := ⟨fuel - 1, by omega⟩
  unfold cleanupMap
  by_cases h : s0 = m k
  · rw [chaseRep_of_eq m (n + 1) h, ← h, h0, h]
  · simp only [chaseRep, if_neg h]
    have hr : rankOf (m k) < n := by
      have h1 := rankOf_lt_card (m k)
      omega
    exact chaseRep_fix hm n (m k) hr


set_option maxRecDepth 100000

theorem vadd_zero_left (P : PointQ) : vadd (zeroPoint P.length) P = P := by
  induction P with
  | nil => rfl
  | cons a t ih =>
    simp only [List.length_cons, zeroPoint, List.replicate_succ,
      vadd, List.zipWith_cons_cons, zero_add]
    exact congrArg (fun l => a :: l) ih

/-!
Claim theorems.
-/

/-- Claim C1: for a symmetry-based polytope over a concrete group of
order G with vertex-class stabiliser of order S, toPolytopeC should
produce G / S vertices; for the triangle group (order 6, stabiliser of
order 2 generated by the change-edge reflection) this is 3.  The code
produces 1 vertex: modifySimplifier mutates its first argument in place,
so unions from both the ascending and descending chain builds accumulate
inside the shared identity simplifier, and the level-0 element
simplifier collapses all vertex classes.  This contradicts the comments
of toPolytopeC itself, which describe ascendingSimplifiers[0] as the map
sending each flag to itself.  The theorem evaluates the embedded
pipeline at this failing input. -/
theorem c1_triangle_vertex_count :
    (vertexReps enumCanon).length = 1 ∧ (6 : Nat) / 2 = 3 ∧
      (vertexReps enumCanon).length ≠ 6 / 2 := by decide

/-- Claim C2 counterexample: within the toPolytopeC run over the
triangle group enumerated and compared by enumB (identity first), the
simplifier returned by the second ascending extendSimplifier call, with
generators 0 and 1 folded in, maps flag 5 to flag 2, while the flag
directly reachable from 5 by generator 1 is flag 1.  Hence lookup(f) is
neither below every directly reachable flag nor the minimum of the
equivalence class of f, refuting claim C2 as stated. -/
theorem c2_minimality_counterexample :
    ascTwo enumB 5 = 2 ∧ mvD3 enumB 5 1 = 1 ∧
      ¬ ascTwo enumB 5 ≤ mvD3 enumB 5 1 := by decide

/-- Claim C2 amended: the clause of representative minimality that the
code does guarantee is lookup(f) ≤ f.  For every input map whose entries
are at most their keys (true of the identity simplifier and preserved by
every union the program performs, since unions always redirect the
strictly greater representative to the smaller one), the simplifier
returned by modifySimplifier maps every flag to a flag at most as large,
whatever side mode (extend or merge, aliased or not) is used.  The
remaining clauses of the claim fail, see c2_minimality_counterexample. -/
theorem c2_lookup_le_self (side : (F → F) → F → (F × F) × (F × F))
    (s0 : F) (fuel : Nat) (keys : List F) {m : F → F}
    (hm : ∀ f, m f ≤ f) :
    ∀ f, (modifySimplifier side s0 fuel keys m).2 f ≤ f := by
  intro f
  have hUd : ∀ g, unionPass side fuel keys m g ≤ g :=
    unionPass_decr side fuel keys hm
  exact le_trans (chaseRep_le _ hUd fuel s0 _) (hUd f)

/-- Witness for c2_lookup_le_self at a concrete instance. -/
theorem c2_lookup_le_self_witness :
    (∀ f : Fin 6, id f ≤ f) ∧
      (modifySimplifier (mergeSideAliased 0) 0 7 keys6
        (id : Fin 6 → Fin 6)).2 3 ≤ 3 :=
  ⟨fun f => le_refl f,
    c2_lookup_le_self (mergeSideAliased 0) 0 7 keys6 (fun f => le_refl f) 3⟩

/-- Claim C3 counterexample: within the toPolytopeC run over the
triangle group enumerated and compared by enumC, where the comparator
ranks a rotation below the identity (the group interface only demands a
strict total order), the simplifier returned by the second ascending
extendSimplifier call is not idempotent: the clean-up pass stops its
chase early whenever it meets the sentinel flag (class 0, identity),
leaving lookup(lookup(f)) different from lookup(f) for the flag encoded
as 3. -/
theorem c3_idempotence_counterexample :
    ascTwo enumC 3 = 1 ∧ ascTwo enumC 1 = 0 ∧
      ascTwo enumC (ascTwo enumC 3) ≠ ascTwo enumC 3 := by decide

/-- Claim C3 amended: the simplifier returned by modifySimplifier is
idempotent provided the sentinel flag (class 0, identity element) is the
least flag of the order, which holds whenever the group comparator ranks
the identity first, and provided the input map sends every flag to a
flag at most as large (true of every map the program builds).  Without
the sentinel-minimality proviso idempotence fails, see
c3_idempotence_counterexample. -/
theorem c3_idempotent_when_sentinel_least [Fintype F]
    (side : (F → F) → F → (F × F) × (F × F)) (s0 : F) (fuel : Nat)
    (keys : List F) {m : F → F} (hm : ∀ f, m f ≤ f)
    (hbot : ∀ f, s0 ≤ f) (hfuel : Fintype.card F < fuel) :
    ∀ k, (modifySimplifier side s0 fuel keys m).2
        ((modifySimplifier side s0 fuel keys m).2 k) =
      (modifySimplifier side s0 fuel keys m).2 k := by
  intro k
  have hUd : ∀ g, unionPass side fuel keys m g ≤ g :=
    unionPass_decr side fuel keys hm
  have h0 : unionPass side fuel keys m s0 = s0 :=
    le_antisymm (hUd s0) (hbot _)
  have hp : unionPass side fuel keys m
      (cleanupMap s0 fuel (unionPass side fuel keys m) k) =
      cleanupMap s0 fuel (unionPass side fuel keys m) k :=
    cleanupMap_fix hUd h0 hfuel k
  show cleanupMap s0 fuel (unionPass side fuel keys m)
      (cleanupMap s0 fuel (unionPass side fuel keys m) k) =
    cleanupMap s0 fuel (unionPass side fuel keys m) k
  obtain ⟨n, hn⟩ : ∃ n, fuel = n + 1 := ⟨fuel - 1, by omega⟩
  subst hn
  show chaseRep (unionPass side (n + 1) keys m) (n + 1) s0
      (unionPass side (n + 1) keys m
        (cleanupMap s0 (n + 1) (unionPass side (n + 1) keys m) k)) =
    cleanupMap s0 (n + 1) (unionPass side (n + 1) keys m) k
  rw [hp]
  exact chaseRep_fixpoint_eval hp n s0

/-- Witness for c3_idempotent_when_sentinel_least at a concrete
instance. -/
theorem c3_idempotent_when_sentinel_least_witness :
    (∀ f : Fin 2, id f ≤ f) ∧ (∀ f : Fin 2, (0 : Fin 2) ≤ f) ∧
      Fintype.card (Fin 2) < 3 ∧
      (modifySimplifier (mergeSideAliased 0) 0 3 [0, 1]
          (id : Fin 2 → Fin 2)).2
        ((modifySimplifier (mergeSideAliased 0) 0 3 [0, 1]
            (id : Fin 2 → Fin 2)).2 1) =
        (modifySimplifier (mergeSideAliased 0) 0 3 [0, 1]
          (id : Fin 2 → Fin 2)).2 1 :=
  ⟨by decide, by decide, by decide,
    c3_idempotent_when_sentinel_least (mergeSideAliased 0) 0 3 [0, 1]
      (by decide) (by decide) (by decide) 1⟩

/-- Claim C5: circumcenter returns null for the nullitope; for a single
vertex it returns the vertex itself (any coordinates, any higher
levels); for the regular 2-simplex with exact rational coordinates it
returns the point equidistant from the three vertices, the squared
distances agreeing exactly (hence the distances agree within the 1e-9
tolerance); and for four coplanar points that are not concyclic it
returns null, as a normal outcome rather than an error. -/
theorem c5_circumcenter_cases :
    (∀ d : Nat, circumcenter d .nil = .ok none) ∧
      (∀ (P : PointQ) (hs : List (List (List Nat))),
        circumcenter P.length (.cons [P] hs) = .ok (some P)) ∧
      (circumcenter 3 simplexEL = .ok (some [1/3, 1/3, 1/3]) ∧
        distSq [1/3, 1/3, 1/3] [1, 0, 0] = 2/3 ∧
        distSq [1/3, 1/3, 1/3] [0, 1, 0] = 2/3 ∧
        distSq [1/3, 1/3, 1/3] [0, 0, 1] = 2/3) ∧
      circumcenter 2 fourPointsEL = .ok none := by
  refine ⟨fun d => rfl, fun P hs => ?_, ⟨?_, ?_, ?_, ?_⟩, ?_⟩
  · simp only [circumcenter, List.map_nil, ccLoop]
    rw [vadd_zero_left P]
  · norm_num [circumcenter, simplexEL, ccLoop, vadd, vsub, vscale, vdot,
      sqMagnitude, distSq, projectQ, zeroPoint, epsQ, absSqrtDiffGt,
      List.replicate, List.zipWith, List.foldl, List.map, List.sum_cons,
      List.sum_nil]
  · norm_num [distSq, sqMagnitude, vdot, vsub, List.zipWith, List.sum_cons,
      List.sum_nil]
  · norm_num [distSq, sqMagnitude, vdot, vsub, List.zipWith, List.sum_cons,
      List.sum_nil]
  · norm_num [distSq, sqMagnitude, vdot, vsub, List.zipWith, List.sum_cons,
      List.sum_nil]
  · norm_num [circumcenter, fourPointsEL, ccLoop, vadd, vsub, vscale, vdot,
      sqMagnitude, distSq, projectQ, zeroPoint, epsQ, absSqrtDiffGt,
      List.replicate, List.zipWith, List.foldl, List.map, List.sum_cons,
      List.sum_nil]

/-- Claim C6: setSpaceDimensions(2) on a polytope whose only vertex has
three coordinates is supposed, by the claim and by the doc comment of
the method itself, to truncate the vertex to its first two coordinates;
the embedded code leaves the vertex unchanged, because the source
assigns the slice result to a local variable only, while still setting
spaceDimensions to 2.  Padding does work: a one-coordinate vertex gets
zero-extended.  The theorem evaluates the method on both inputs. -/
theorem c6_truncation_is_noop :
    (setSpaceDimensions threeCoordP 2).elementList = .cons [[1, 2, 3]] [] ∧
      (setSpaceDimensions threeCoordP 2).spaceDimensions = 2 ∧
      (setSpaceDimensions ⟨.cons [[1]] [], 0, 1, .named "pt"⟩ 3).elementList =
        .cons [[1, 0, 0]] [] :=
  ⟨rfl, rfl, rfl⟩

/-- Claim C7 counterexample: the edge set of face 0 of twoTrianglesP is
two disjoint triangles, which does not close into a single cycle, and in
digonP both vertices have a single distinct edge partner; the claim says
both cases fail with a malformed-boundary error, but cycle extraction
succeeds on both, returning only the cycle through the start vertex. -/
theorem c7_malformed_not_detected :
    faceToVertices twoTrianglesP 0 = .ok [0, 1, 2] ∧
      faceToVertices digonP 0 = .ok [0, 1] :=
  ⟨rfl, rfl⟩

/-- Claim C7 amended: faceToVertices throws its RangeError whenever the
polytope has no 2-face level or the index is out of range; a third edge
partner at one vertex raises the distinct two-links-only error of
NodeD.linkTo; a vertex left with an empty neighbor slot makes the walk
fail with an undefined-property access (not a dedicated
malformed-boundary error); and an edge set of several disjoint cycles is
not detected at all, see c7_malformed_not_detected. -/
theorem c7_error_behavior :
    (∀ (verts : List PointQ) (dm sd : Int) (cn : ConstrNode) (i : Nat),
        faceToVertices ⟨.cons verts [], dm, sd, cn⟩ i = .error .rangeError) ∧
      (∀ i : Nat, faceToVertices ⟨.nil, -1, -1, .named "nullitope"⟩ i =
        .error .rangeError) ∧
      faceToVertices squareP 5 = .error .rangeError ∧
      faceToVertices tripleLinkP 0 = .error .linkError ∧
      faceToVertices openPathP 0 = .error .undefinedAccess :=
  ⟨fun _verts _dm _sd _cn _i => rfl, fun _i => rfl, rfl, rfl, rfl⟩

/-- Claim C8: on the unit square face bounded by the edges (0,1), (1,2),
(2,3), (3,0), faceToVertices returns the four-element sequence 0, 1, 2,
3, a permutation of the vertex indices in which every adjacent pair,
the wraparound pair included, is one of the four input edges. -/
theorem c8_square_cycle :
    faceToVertices squareP 0 = .ok [0, 1, 2, 3] ∧
      List.Perm [0, 1, 2, 3] [0, 1, 2, 3] ∧
      (cyclePairs [0, 1, 2, 3]).Forall
        (pairInEdges [[0, 1], [1, 2], [2, 3], [3, 0]]) :=
  ⟨rfl, List.Perm.refl _, by decide⟩

/-- Claim C9: circumradius on an explicit polytope with a vertex level
returns the magnitude of its first vertex, the distance from the origin
of coordinates, and 0 when the vertex level is missing; stated on the
squared quantities the code determines.  On the shifted unit square the
squared circumradius is 2, while the circumcenter is (3/2, 3/2) at
squared distance 1/2 from every vertex, so the returned value agrees
with the geometric circumradius only when the circumcenter is at the
origin. -/
theorem c9_circumradius_is_origin_distance :
    (∀ (v : PointQ) (vs : List PointQ) (hs : List (List (List Nat)))
        (dm sd : Int) (cn : ConstrNode),
        circumradiusSq ⟨.cons (v :: vs) hs, dm, sd, cn⟩ =
          some (sqMagnitude v)) ∧
      (∀ (dm sd : Int) (cn : ConstrNode),
        circumradiusSq ⟨.nil, dm, sd, cn⟩ = some 0) ∧
      circumradiusSq shiftedSquareP = some 2 ∧
      circumcenter 2 shiftedSquareP.elementList = .ok (some [3/2, 3/2]) ∧
      distSq [3/2, 3/2] [1, 1] = 1/2 ∧ (2 : ℚ) ≠ 1/2 := by
  refine ⟨fun v vs hs dm sd cn => rfl, fun dm sd cn => rfl, ?_, ?_, ?_, ?_⟩
  · norm_num [circumradiusSq, shiftedSquareP, sqMagnitude, vdot,
      List.zipWith, List.sum_cons, List.sum_nil]
  · norm_num [circumcenter, shiftedSquareP, ccLoop, vadd, vsub, vscale,
      vdot, sqMagnitude, distSq, projectQ, zeroPoint, epsQ, absSqrtDiffGt,
      List.replicate, List.zipWith, List.foldl, List.map, List.sum_cons,
      List.sum_nil]
  · norm_num [distSq, sqMagnitude, vdot, vsub, List.zipWith, List.sum_cons,
      List.sum_nil]
  · norm_num

/-- Claim C10: when no construction node is supplied, the PolytopeC
constructor reads the length of elementList[elementList.length - 2]; on
element lists with fewer than two levels, the nullitope included, that
entry does not exist and the constructor throws instead of producing a
polytope with dimensions = length - 1.  With an explicit construction
node those lists construct fine, with dimensions = length - 1. -/
theorem c10_default_construction_fails :
    mkPolytopeC .nil none =
        .error "TypeError: cannot read length of undefined" ∧
      (∀ verts : List PointQ, mkPolytopeC (.cons verts []) none =
        .error "TypeError: cannot read length of undefined") ∧
      mkPolytopeC .nil (some (.named "nullitope")) =
        .ok ⟨.nil, -1, -1, .named "nullitope"⟩ ∧
      ∀ (v : PointQ) (vs : List PointQ) (cn : ConstrNode),
        mkPolytopeC (.cons (v :: vs) []) (some cn) =
          .ok ⟨.cons (v :: vs) [], 0, (v.length : Int), cn⟩ :=
  ⟨rfl, fun _verts => rfl, rfl, fun _v _vs _cn => rfl⟩


end Taco
